import Mathlib

/-!
Shallow embedding of the Performance Attribution & Integrity Engine of the
Factor-Tilt-Model repository, and proofs settling the frozen claims about it.

The numerical core lives in src/performance_attribution_system.py
(class PerformanceAttributionSystem) and src/record_keeping_system.py
(class FactorRecordKeeping).  Python floats are modelled by exact rationals
(ℚ); pandas Series/DataFrame columns by lists of rationals aligned by
position; Python dicts keyed by factor name by association lists
(List (String × _)); sqlite rows by lists of (column-name, value) pairs.
NaN-able cells are modelled by Option ℚ (none = NaN / absent).  np.sqrt has
no exact rational counterpart, so definitions that use it take an abstract
square-root function as a parameter; theorems assume only the property
(sqrtQ x = 0 ↔ x = 0) that every real/float square root satisfies on the
non-negative inputs produced here.
-/

namespace FactorTilt

/-- Period return of a daily-return series: product over all rows of
(1 + r) minus 1.  Embeds the pandas expression
(series + 1).prod() - 1 used at src/performance_attribution_system.py:209,
210, 216, 343 and 344. -/
def compound (l : List ℚ) : ℚ := (l.map (fun r => r + 1)).prod - 1

/-- One day of the weighted-portfolio loop of get_portfolio_returns
(src/performance_attribution_system.py:147-155): for each (factor, weight)
pair, if the factor is a column of the row and its value is not NaN, add
weight * factor_return; otherwise add nothing.  A row is the list of
(column-name, cell) pairs for one date; a cell of none models NaN, and a
factor with no entry models a factor absent from the pivoted table. -/
def portfolioDailyReturn (w : List (String × ℚ)) (row : List (String × Option ℚ)) : ℚ :=
  (w.map (fun p =>
    match row.lookup p.1 with
    | some (some r) => p.2 * r
    | _ => 0)).sum

/-- The Portfolio column built by get_portfolio_returns
(src/performance_attribution_system.py:144-159): one weighted daily return
per date of the pivoted table. -/
def get_portfolio_returns (table : List (ℕ × List (String × Option ℚ)))
    (w : List (String × ℚ)) : List (ℕ × ℚ) :=
  table.map (fun d => (d.1, portfolioDailyReturn w d.2))

/-- Benchmark weight of a factor: benchmark_weights.get(factor, 0.0)
(src/performance_attribution_system.py:227). -/
def wbOf (bw : List (String × ℚ)) (f : String) : ℚ := (bw.lookup f).getD 0

/-- Compounded period return of one factor column, defaulting to 0 for a
factor that is not a column of the table: the factor_period_returns dict
built at src/performance_attribution_system.py:213-216 read back with
.get(factor, 0.0) at line 228. -/
def factorPeriodReturn (cols : List (String × List ℚ)) (f : String) : ℚ :=
  match cols.lookup f with
  | some col => compound col
  | none => 0

/-- Result dict of calculate_brinson_attribution
(src/performance_attribution_system.py:248-257). -/
structure BrinsonResult where
  total_return : ℚ
  benchmark_return : ℚ
  excess_return : ℚ
  allocation_effect : ℚ
  selection_effect : ℚ
  interaction_effect : ℚ
  factor_contributions : List (String × ℚ)
  reconciliation : ℚ
deriving DecidableEq

/-- Brinson decomposition of calculate_brinson_attribution
(src/performance_attribution_system.py:195-261).  cols are the factor
columns of the portfolio_returns DataFrame, pcol its Portfolio column,
bench the benchmark_returns series, pw and bw the portfolio and benchmark
weight dicts.  The loop over portfolio_weights accumulates, per factor f
with wp = pw[f], wb = bw.get(f, 0), rp = factor period return and
rb = benchmark period return: allocation (wp - wb) * rb, selection
wb * (rp - rb), interaction (wp - wb) * (rp - rb).  The reconciliation
field stores allocation + selection + interaction (line 256); the code
never compares it to excess_return and defines no error for a mismatch. -/
def calculate_brinson_attribution (cols : List (String × List ℚ)) (pcol bench : List ℚ)
    (pw bw : List (String × ℚ)) : BrinsonResult :=
  let rb := compound bench
  let pr := compound pcol
  let alloc := (pw.map (fun p => (p.2 - wbOf bw p.1) * rb)).sum
  let sel := (pw.map (fun p => wbOf bw p.1 * (factorPeriodReturn cols p.1 - rb))).sum
  let inter := (pw.map (fun p => (p.2 - wbOf bw p.1) * (factorPeriodReturn cols p.1 - rb))).sum
  { total_return := pr
    benchmark_return := rb
    excess_return := pr - rb
    allocation_effect := alloc
    selection_effect := sel
    interaction_effect := inter
    factor_contributions := pw.map (fun p =>
      (p.1, (p.2 - wbOf bw p.1) * rb
        + wbOf bw p.1 * (factorPeriodReturn cols p.1 - rb)
        + (p.2 - wbOf bw p.1) * (factorPeriodReturn cols p.1 - rb)))
    reconciliation := alloc + sel + inter }

/-- Per-factor tilt attribution of calculate_factor_tilts_attribution
(src/performance_attribution_system.py:298-307): for each weighted factor
that is a column of the table, (factor_returns * weight_diff).sum() with
weight_diff = weights[f] - equal_weights[f] and
equal_weights[f] = 1.0 / len(weights) (line 274). -/
def factor_tilt_contributions (cols : List (String × List ℚ))
    (w : List (String × ℚ)) : List (String × ℚ) :=
  w.filterMap (fun p =>
    (cols.lookup p.1).map (fun col =>
      (p.1, (col.map (fun r => r * (p.2 - 1 / (w.length : ℚ)))).sum)))

/-- Mean of a pandas Series: sum divided by length (0 / 0 = 0 in ℚ stands
for the empty mean, which no theorem below relies on). -/
def listMean (l : List ℚ) : ℚ := l.sum / (l.length : ℚ)

/-- Sample variance with the pandas default ddof = 1: sum of squared
deviations from the mean divided by (n - 1).  pandas .std() is the square
root of this; theorems take the square root abstractly. -/
def sampleVar (l : List ℚ) : ℚ :=
  (l.map (fun x => (x - listMean l) ^ 2)).sum / ((l.length : ℚ) - 1)

/-- Inner join of two date-indexed series, as produced by
pd.DataFrame with both columns followed by .dropna()
(src/performance_attribution_system.py:331-334): the (portfolio, benchmark)
pairs of the dates present in both inputs, in the order of the first. -/
def alignPair (p b : List (ℕ × ℚ)) : List (ℚ × ℚ) :=
  p.filterMap (fun d => (b.lookup d.1).map (fun rb => (d.2, rb)))

/-- Metrics computed by calculate_risk_adjusted_metrics
(src/performance_attribution_system.py:342-361). -/
structure RiskMetrics where
  portfolio_total_return : ℚ
  benchmark_total_return : ℚ
  excess_return : ℚ
  portfolio_vol : ℚ
  benchmark_vol : ℚ
  tracking_error : ℚ
  information_ratio : ℚ
  portfolio_sharpe : ℚ
  benchmark_sharpe : ℚ
deriving DecidableEq

/-- Embedding of calculate_risk_adjusted_metrics
(src/performance_attribution_system.py:325-361).  The two series are inner
joined on date and rows with a missing side dropped; if nothing is left the
function returns the empty dict, modelled as none (line 336-337 — the code
returns {}, it does not raise).  Volatilities are std * sqrt(252) with
std = sqrt(sampleVar); sqrtQ abstracts np.sqrt.  information_ratio and the
two Sharpe ratios guard division: x / d if d != 0 else 0
(lines 356, 360, 361). -/
def calculate_risk_adjusted_metrics (sqrtQ : ℚ → ℚ) (p b : List (ℕ × ℚ))
    (risk_free_rate : ℚ) : Option RiskMetrics :=
  let aligned := alignPair p b
  if aligned = [] then none else
  let pr := aligned.map Prod.fst
  let br := aligned.map Prod.snd
  let ex := aligned.map (fun q => q.1 - q.2)
  let pvol := sqrtQ (sampleVar pr) * sqrtQ 252
  let bvol := sqrtQ (sampleVar br) * sqrtQ 252
  let te := sqrtQ (sampleVar ex) * sqrtQ 252
  let daily_rf := risk_free_rate / 252
  some
    { portfolio_total_return := compound pr
      benchmark_total_return := compound br
      excess_return := compound pr - compound br
      portfolio_vol := pvol
      benchmark_vol := bvol
      tracking_error := te
      information_ratio := if te ≠ 0 then listMean ex * 252 / te else 0
      portfolio_sharpe :=
        if pvol ≠ 0 then listMean (pr.map (fun r => r - daily_rf)) * 252 / pvol else 0
      benchmark_sharpe :=
        if bvol ≠ 0 then listMean (br.map (fun r => r - daily_rf)) * 252 / bvol else 0 }

/-- A field value of a persisted record: a sqlite TEXT or REAL cell, or
the corresponding Python dataclass value.  REAL columns store IEEE doubles
exactly and TEXT columns store strings exactly, so a value read back equals
the value inserted. -/
inductive Value where
  | str (s : String) : Value
  | num (q : ℚ) : Value
deriving DecidableEq

/-- TradeRecord dataclass of src/record_keeping_system.py:13-27, with its
twelve fields in declaration order. -/
structure TradeRecord where
  timestamp : String
  trade_id : String
  factor : String
  symbol : String
  action : String
  quantity : ℚ
  price : ℚ
  total_value : ℚ
  reason : String
  portfolio_value_before : ℚ
  portfolio_value_after : ℚ
  user_id : String
deriving DecidableEq

/-- dataclasses.asdict of a TradeRecord: its twelve (field-name, value)
pairs in declaration order, as hashed at src/record_keeping_system.py:229
and inserted at lines 237-248. -/
def asdictTrade (t : TradeRecord) : List (String × Value) :=
  [("timestamp", .str t.timestamp), ("trade_id", .str t.trade_id),
   ("factor", .str t.factor), ("symbol", .str t.symbol),
   ("action", .str t.action), ("quantity", .num t.quantity),
   ("price", .num t.price), ("total_value", .num t.total_value),
   ("reason", .str t.reason),
   ("portfolio_value_before", .num t.portfolio_value_before),
   ("portfolio_value_after", .num t.portfolio_value_after),
   ("user_id", .str t.user_id)]

/-- Insertion step of the key sort below. -/
def insertKey (p : String × Value) : List (String × Value) → List (String × Value)
  | [] => [p]
  | q :: rest => if p.1 ≤ q.1 then p :: q :: rest else q :: insertKey p rest

/-- Insertion sort of a field dict by field name, the key order produced by
json.dumps(data, sort_keys=True). -/
def sortKeys : List (String × Value) → List (String × Value)
  | [] => []
  | p :: rest => insertKey p (sortKeys rest)

/-- generate_hash_signature (src/record_keeping_system.py:220-223):
sha256(json.dumps(data, sort_keys=True)).hexdigest().  json.dumps on a dict
with sort_keys=True is an injective function of the key-sorted association
list (distinct keys, deterministic float repr), and sha256 is modelled as
collision-free, so the hash is modelled by the key-sorted association list
itself: two field dicts get the same signature exactly when their canonical
serializations coincide. -/
def generate_hash_signature (data : List (String × Value)) : List (String × Value) :=
  sortKeys data

/-- One persisted row as later read back for verification: the hashed
fields (everything except the store-generated id and created_date and the
hash itself), plus the stored hash_signature column. -/
structure StoredRow where
  fields : List (String × Value)
  hash_signature : List (String × Value)
deriving DecidableEq

/-- record_trade (src/record_keeping_system.py:225-257): hash the asdict
of the trade, then insert the twelve dataclass values together with the
hash.  Reading the row back and dropping id, hash_signature and
created_date recovers exactly the twelve hashed fields. -/
def record_trade (t : TradeRecord) : StoredRow :=
  { fields := asdictTrade t, hash_signature := generate_hash_signature (asdictTrade t) }

/-- The three persisted record tables that verify_data_integrity reports
on: trade_records, decision_records and risk_assessments
(src/record_keeping_system.py:467). -/
structure RecordStore where
  trade_records : List StoredRow
  decision_records : List StoredRow
  risk_assessments : List StoredRow
deriving DecidableEq

/-- Result dict of verify_data_integrity: one boolean per table. -/
structure IntegrityResults where
  trade_records : Bool
  decision_records : Bool
  risk_assessments : Bool
deriving DecidableEq

/-- verify_data_integrity (src/record_keeping_system.py:465-495): all
three results start at True; the code then loops over trade_records rows
only, recomputes the hash of each row minus id, hash_signature and
created_date, and flips trade_records to False on any mismatch.  The
comment at line 486 reads "Similar checks for other tables..." but no such
loop exists: decision_records and risk_assessments are never examined and
keep their initial True. -/
def verify_data_integrity (s : RecordStore) : IntegrityResults :=
  { trade_records :=
      s.trade_records.all (fun r => decide (generate_hash_signature r.fields = r.hash_signature))
    decision_records := true
    risk_assessments := true }

/-! Concrete inputs used by the counterexamples and witnesses below.
Returns are exact rationals; exCols / exRows realize the two-factor
two-date scenario of spec.md section 8 (factors A and B with daily returns
A = [0.01, -0.02], B = [0.00, 0.01]). -/

/-- Factor columns of the section-8 scenario table. -/
def exCols : List (String × List ℚ) :=
  [("A", [1/100, -(1/50)]), ("B", [0, 1/100])]

/-- The same table row-wise, as fed to get_portfolio_returns. -/
def exRows : List (ℕ × List (String × Option ℚ)) :=
  [(0, [("A", some (1/100)), ("B", some 0)]),
   (1, [("A", some (-(1/50))), ("B", some (1/100))])]

/-- Portfolio weights of the section-8 scenario: A 0.6, B 0.4 (sum 1). -/
def exPw : List (String × ℚ) := [("A", 3/5), ("B", 2/5)]

/-- Benchmark weights of the section-8 scenario: A 0.5, B 0.5 (sum 1). -/
def exBw : List (String × ℚ) := [("A", 1/2), ("B", 1/2)]

/-- Benchmark daily series of the scenario: the equal-weighted daily
returns 0.005 and -0.005. -/
def exBench : List ℚ := [1/200, -(1/200)]

/-- The equal-weight vector over the two scenario factors: each weight is
exactly 1/n with n = 2. -/
def exEqW : List (String × ℚ) := [("A", 1/2), ("B", 1/2)]

/-- Portfolio column produced by the get_portfolio_returns pipeline for
exRows and exPw. -/
def exPcol : List ℚ := (get_portfolio_returns exRows exPw).map Prod.snd

/-- Invalid portfolio weights summing to 2, for the weight-validation
counterexample. -/
def exPwBad : List (String × ℚ) := [("A", 3/2), ("B", 1/2)]

/-- Portfolio column produced by the get_portfolio_returns pipeline for
exRows and the invalid weights exPwBad. -/
def exPcolBad : List ℚ := (get_portfolio_returns exRows exPwBad).map Prod.snd

/-- Factor columns for the reconciliation counterexample:
A = [0.02, -0.01], B = [-0.01, 0.03]. -/
def exCols5 : List (String × List ℚ) :=
  [("A", [1/50, -(1/100)]), ("B", [-(1/100), 3/100])]

/-- Portfolio weights for the reconciliation counterexample: A 0.7, B 0.3. -/
def exPw5 : List (String × ℚ) := [("A", 7/10), ("B", 3/10)]

/-- Portfolio column for the reconciliation counterexample: the weighted
daily returns 0.011 and 0.002. -/
def exPcol5 : List ℚ := [11/1000, 1/500]

/-- Benchmark daily series for the reconciliation counterexample. -/
def exBench5 : List ℚ := [1/200, 1/100]

/-- Two date-indexed daily series with no overlapping dates. -/
def exDisjointP : List (ℕ × ℚ) := [(0, 1/100), (2, 1/50)]

/-- Second series of the disjoint-dates scenario. -/
def exDisjointB : List (ℕ × ℚ) := [(1, 1/200), (3, 1/400)]

/-- A portfolio series equal to its own benchmark on two shared dates,
so the tracking error is exactly zero. -/
def exFlatP : List (ℕ × ℚ) := [(0, 1/100), (1, 1/100)]

/-- Metrics record that calculate_risk_adjusted_metrics produces for
exFlatP against itself with the identity standing in for np.sqrt:
variances are 0, so volatilities, tracking error and all guarded ratios
are 0. -/
def exFlatMetrics : RiskMetrics :=
  { portfolio_total_return := 201/10000
    benchmark_total_return := 201/10000
    excess_return := 0
    portfolio_vol := 0
    benchmark_vol := 0
    tracking_error := 0
    information_ratio := 0
    portfolio_sharpe := 0
    benchmark_sharpe := 0 }

/-- A concrete trade record. -/
def exTrade : TradeRecord :=
  { timestamp := "2024-01-02T10:00:00"
    trade_id := "T-1"
    factor := "Value"
    symbol := "VTV"
    action := "BUY"
    quantity := 10
    price := 155
    total_value := 1550
    reason := "rebalance"
    portfolio_value_before := 100000
    portfolio_value_after := 100000
    user_id := "system" }

/-- The same trade with the stored price field mutated after storage. -/
def exTradeMutated : TradeRecord :=
  { exTrade with price := 255, total_value := 2550 }

/-- A stored decision row whose fields were tampered with after storage:
the stored hash_signature is the hash of different field values. -/
def exTamperedDecision : StoredRow :=
  { fields := [("decision_id", .str "D-1"), ("rationale", .str "tampered text")]
    hash_signature :=
      generate_hash_signature [("decision_id", .str "D-1"), ("rationale", .str "original text")] }

/-- A stored risk-assessment row tampered with in the same way. -/
def exTamperedRisk : StoredRow :=
  { fields := [("assessment_id", .str "R-1"), ("risk_level", .str "LOW")]
    hash_signature :=
      generate_hash_signature [("assessment_id", .str "R-1"), ("risk_level", .str "HIGH")] }

/-- Key-sorted form of a trade dict: json.dumps with sort_keys=True lists
the twelve trade fields in lexicographic key order. -/
theorem sortKeys_asdict (t : TradeRecord) :
    sortKeys (asdictTrade t) =
      [("action", .str t.action), ("factor", .str t.factor),
       ("portfolio_value_after", .num t.portfolio_value_after),
       ("portfolio_value_before", .num t.portfolio_value_before),
       ("price", .num t.price), ("quantity", .num t.quantity),
       ("reason", .str t.reason), ("symbol", .str t.symbol),
       ("timestamp", .str t.timestamp), ("total_value", .num t.total_value),
       ("trade_id", .str t.trade_id), ("user_id", .str t.user_id)] := by
  simp +decide [asdictTrade, sortKeys, insertKey]

/-- Claim C7: the period return of a return series is the geometric
compound, product over all rows of (1 + r) minus 1, and it is invariant
under permuting the rows of the series — shuffling and re-sorting a series
before compounding yields the identical period return. -/
theorem compound_perm_invariant (l l' : List ℚ) (h : l.Perm l') :
    compound l' = compound l ∧ compound l = (l.map (fun r => r + 1)).prod - 1 := by
  refine ⟨?_, rfl⟩
  unfold compound
  rw [List.Perm.prod_eq (List.Perm.map _ h)]

/-- Witness for C7 at a concrete three-row series and a transposition of
its first two rows. -/
theorem compound_perm_invariant_witness :
    compound [2/100, 1/100, 3/100] = compound [1/100, 2/100, 3/100] :=
  (compound_perm_invariant [1/100, 2/100, 3/100] [2/100, 1/100, 3/100]
    (List.Perm.swap (2/100) (1/100) [3/100])).1

/-- Claim C3 counterexample: for two concrete series with zero overlapping
dates, calculate_risk_adjusted_metrics returns the empty dict (modelled as
none) to its caller instead of raising: no DataUnavailableError, or any
other exception type, exists anywhere in the code. -/
theorem disjoint_dates_returns_empty_result :
    alignPair exDisjointP exDisjointB = [] ∧
    calculate_risk_adjusted_metrics (fun x => x) exDisjointP exDisjointB (1/50) = none := by
  have h : alignPair exDisjointP exDisjointB = [] := by
    simp +decide [alignPair, exDisjointP, exDisjointB, List.lookup]
  exact ⟨h, by simp [calculate_risk_adjusted_metrics, h]⟩

/-- Claim C3 (amended): whenever the date intersection of the two input
series is empty, the computation returns an empty-but-successful result —
an empty dict from calculate_risk_adjusted_metrics (and an empty DataFrame
from get_portfolio_returns) — rather than raising; the spec error type
DataUnavailableError does not exist in the code. -/
theorem empty_alignment_yields_none (sqrtQ : ℚ → ℚ) (p b : List (ℕ × ℚ)) (rf : ℚ)
    (h : alignPair p b = []) :
    calculate_risk_adjusted_metrics sqrtQ p b rf = none := by
  simp [calculate_risk_adjusted_metrics, h]

/-- Witness for the amended C3 at a concrete disjoint-date input. -/
theorem empty_alignment_yields_none_witness :
    calculate_risk_adjusted_metrics (fun x => 2 * x) exDisjointP exDisjointB 0 = none :=
  empty_alignment_yields_none (fun x => 2 * x) exDisjointP exDisjointB 0
    (by simp +decide [alignPair, exDisjointP, exDisjointB, List.lookup])

/-- Claim C5 counterexample: a concrete input on which the decomposition
identity fails beyond any tolerance (reconciliation differs from excess
return by 63/250000 = 0.000252), yet calculate_brinson_attribution returns
its full result dict; the code defines no ReconciliationError and performs
no comparison between the stored reconciliation value and excess_return. -/
theorem identity_violation_returns_result :
    (calculate_brinson_attribution exCols5 exPcol5 exBench5 exPw5 exBw).reconciliation
        = -(57/25000) ∧
    (calculate_brinson_attribution exCols5 exPcol5 exBench5 exPw5 exBw).excess_return
        = -(507/250000) ∧
    (calculate_brinson_attribution exCols5 exPcol5 exBench5 exPw5 exBw).reconciliation
        - (calculate_brinson_attribution exCols5 exPcol5 exBench5 exPw5 exBw).excess_return
        = -(63/250000) ∧
    (1 : ℚ)/1000000000 < 63/250000 := by
  refine ⟨?_, ?_, ?_, by norm_num⟩ <;>
    · simp +decide [calculate_brinson_attribution, exCols5, exPcol5, exBench5, exPw5, exBw,
        compound, wbOf, factorPeriodReturn, List.lookup]
      norm_num

/-- Claim C5 (amended): the engine never verifies the decomposition
identity and never raises: calculate_brinson_attribution stores the sum
allocation + selection + interaction in the reconciliation field of the
result it returns, computes excess_return independently as the compounded
portfolio return minus the compounded benchmark return, and performs no
comparison between the two; every failure path in the module is a caught
exception that returns an empty dict or DataFrame rather than a typed
error surfaced to the caller. -/
theorem reconciliation_stored_not_checked (cols : List (String × List ℚ))
    (pcol bench : List ℚ) (pw bw : List (String × ℚ)) :
    (calculate_brinson_attribution cols pcol bench pw bw).reconciliation
        = (calculate_brinson_attribution cols pcol bench pw bw).allocation_effect
          + (calculate_brinson_attribution cols pcol bench pw bw).selection_effect
          + (calculate_brinson_attribution cols pcol bench pw bw).interaction_effect
    ∧ (calculate_brinson_attribution cols pcol bench pw bw).excess_return
        = compound pcol - compound bench :=
  ⟨rfl, rfl⟩

/-- Claim C1 counterexample: at the concrete two-factor, two-date scenario
of spec.md section 8 (weights summing exactly to 1 on both sides, table
with 2 common dates, Portfolio column produced by the
get_portfolio_returns pipeline), allocation + selection + interaction
differs from excess_return by -9/125000 = -0.000072, far beyond the 1e-9
tolerance: the code sums (wp - wb) * rb + wb * (rp - rb) +
(wp - wb) * (rp - rb) = wp * rp - wb * rb over factors, an arithmetic
aggregate of per-factor compounded returns, while excess_return compounds
the portfolio series geometrically, and the two do not agree on multi-date
tables. -/
theorem brinson_identity_counterexample :
    (exPw.map Prod.snd).sum = 1 ∧
    (exBw.map Prod.snd).sum = 1 ∧
    exRows.length = 2 ∧
    (calculate_brinson_attribution exCols exPcol exBench exPw exBw).allocation_effect
      + (calculate_brinson_attribution exCols exPcol exBench exPw exBw).selection_effect
      + (calculate_brinson_attribution exCols exPcol exBench exPw exBw).interaction_effect
      - (calculate_brinson_attribution exCols exPcol exBench exPw exBw).excess_return
      = -(9/125000) ∧
    (1 : ℚ)/1000000000 < 9/125000 := by
  refine ⟨by norm_num [exPw], by norm_num [exBw], by rfl, ?_, by norm_num⟩
  simp +decide [calculate_brinson_attribution, exCols, exPcol, exBench, exPw, exBw,
    compound, wbOf, factorPeriodReturn, get_portfolio_returns, portfolioDailyReturn,
    exRows, List.lookup]
  norm_num

/-- Claim C1 (amended): for every weight mapping and aligned table, the
Brinson effects reconcile exactly against the arithmetically weighted sum
of per-factor compounded returns, not against the geometrically compounded
excess return: allocation + selection + interaction equals the sum over
portfolio factors of wp * rp minus the benchmark period return times the
sum of benchmark weights over those factors.  This equals
excess_return = compounded portfolio return - benchmark return only when
the weighted sum of compounded factor returns happens to equal the
compounded portfolio return (for instance on single-date tables), which
fails in general for tables with two or more dates. -/
theorem brinson_effects_sum_identity (cols : List (String × List ℚ))
    (pcol bench : List ℚ) (pw bw : List (String × ℚ)) :
    (calculate_brinson_attribution cols pcol bench pw bw).allocation_effect
      + (calculate_brinson_attribution cols pcol bench pw bw).selection_effect
      + (calculate_brinson_attribution cols pcol bench pw bw).interaction_effect
    = (pw.map (fun p => p.2 * factorPeriodReturn cols p.1)).sum
      - compound bench * (pw.map (fun p => wbOf bw p.1)).sum := by
  simp only [calculate_brinson_attribution]
  induction pw with
  | nil => simp
  | cons p rest ih =>
    simp only [List.map_cons, List.sum_cons] at ih ⊢
    linear_combination ih

/-- Claim C4 counterexample: a concrete weight mapping summing to 2 is
accepted silently — calculate_brinson_attribution computes and returns an
attribution result for it; the code contains no WeightVector construction
step, no weight-sum check, and no InvalidWeightVectorError. -/
theorem unnormalized_weights_accepted :
    (exPwBad.map Prod.snd).sum = 2 ∧
    (calculate_brinson_attribution exCols exPcolBad exBench exPwBad exBw).total_return
        = -(83/8000) ∧
    (calculate_brinson_attribution exCols exPcolBad exBench exPwBad exBw).excess_return
        = -(207/20000) := by
  refine ⟨by norm_num [exPwBad], ?_, ?_⟩ <;>
    · simp +decide [calculate_brinson_attribution, exCols, exPcolBad, exBench, exPwBad,
        compound, wbOf, factorPeriodReturn, get_portfolio_returns, portfolioDailyReturn,
        exRows, List.lookup]
      norm_num

/-- Claim C4 (amended): no weight validation exists at any point — there
is no typed InvalidWeightVectorError and no construction-time check;
weight dicts flow raw into calculate_brinson_attribution, which computes
its result for every weight mapping regardless of its sum, with
allocation_effect equal to the sum of active weights (wp - wb) times the
benchmark period return and total_return the compounded Portfolio
column. -/
theorem brinson_no_weight_validation (cols : List (String × List ℚ))
    (pcol bench : List ℚ) (pw bw : List (String × ℚ)) :
    (calculate_brinson_attribution cols pcol bench pw bw).allocation_effect
        = (pw.map (fun p => p.2 - wbOf bw p.1)).sum * compound bench
    ∧ (calculate_brinson_attribution cols pcol bench pw bw).total_return = compound pcol := by
  refine ⟨?_, rfl⟩
  simp only [calculate_brinson_attribution]
  induction pw with
  | nil => simp
  | cons p rest ih =>
    simp only [List.map_cons, List.sum_cons] at ih ⊢
    linear_combination ih

/-- The guarded-division pattern x / d if d != 0 else 0 returns exactly 0
when the denominator is 0. -/
theorem guard_zero (d x : ℚ) (h : d = 0) : (if d ≠ 0 then x else 0) = 0 := by
  simp [h]

/-- Sample variance of a list whose elements are all zero is zero. -/
theorem sampleVar_of_all_zero (l : List ℚ) (h : ∀ x ∈ l, x = 0) : sampleVar l = 0 := by
  have hs : l.sum = 0 := List.sum_eq_zero h
  have hm : listMean l = 0 := by simp [listMean, hs]
  have hz : (l.map (fun x => (x - listMean l) ^ 2)).sum = 0 := by
    apply List.sum_eq_zero
    intro y hy
    obtain ⟨x, hx, rfl⟩ := List.mem_map.mp hy
    rw [hm, h x hx]
    ring
  simp [sampleVar, hz]

/-- Claim C6: whenever calculate_risk_adjusted_metrics returns a metrics
dict, information_ratio is exactly 0 when tracking_error is 0 and each
Sharpe ratio is exactly 0 when the corresponding annualized volatility is
0 — a genuine 0 produced by the guarded divisions (x / d if d != 0 else 0)
and never an undefined value or an error; in particular a portfolio that
matches its benchmark on every one of at least two aligned dates has
tracking error exactly 0 and information ratio exactly 0.  sqrtQ is any
function with the zero set of a square root, as np.sqrt has on the
non-negative variances supplied here. -/
theorem risk_metrics_zero_guards (sqrtQ : ℚ → ℚ) (h0 : ∀ x, sqrtQ x = 0 ↔ x = 0)
    (p b : List (ℕ × ℚ)) (rf : ℚ) (m : RiskMetrics)
    (hm : calculate_risk_adjusted_metrics sqrtQ p b rf = some m) :
    (m.tracking_error = 0 → m.information_ratio = 0) ∧
    (m.portfolio_vol = 0 → m.portfolio_sharpe = 0) ∧
    (m.benchmark_vol = 0 → m.benchmark_sharpe = 0) ∧
    (2 ≤ (alignPair p b).length → (∀ q ∈ alignPair p b, q.1 = q.2) →
      m.tracking_error = 0 ∧ m.information_ratio = 0) := by
  simp only [calculate_risk_adjusted_metrics] at hm
  by_cases hal : alignPair p b = []
  · simp [hal] at hm
  · rw [if_neg hal] at hm
    injection hm with hm
    subst hm
    refine ⟨fun h => guard_zero _ _ h, fun h => guard_zero _ _ h,
      fun h => guard_zero _ _ h, ?_⟩
    intro _ hq
    have hte : sqrtQ (sampleVar ((alignPair p b).map (fun q => q.1 - q.2))) * sqrtQ 252 = 0 := by
      have hvar : sampleVar ((alignPair p b).map (fun q => q.1 - q.2)) = 0 := by
        apply sampleVar_of_all_zero
        intro x hx
        obtain ⟨q, hqm, rfl⟩ := List.mem_map.mp hx
        rw [hq q hqm]
        ring
      rw [hvar, (h0 0).mpr rfl, zero_mul]
    exact ⟨hte, guard_zero _ _ hte⟩

/-- Witness for C6: a two-date portfolio measured against itself, with the
identity function standing in for np.sqrt; the tracking error and both
volatilities are 0, and information_ratio and portfolio_sharpe come out
exactly 0. -/
theorem risk_metrics_zero_guards_witness :
    calculate_risk_adjusted_metrics (fun x => x) exFlatP exFlatP (1/50) = some exFlatMetrics ∧
    exFlatMetrics.information_ratio = 0 ∧ exFlatMetrics.portfolio_sharpe = 0 := by
  have hm : calculate_risk_adjusted_metrics (fun x => x) exFlatP exFlatP (1/50)
      = some exFlatMetrics := by
    have hal : alignPair exFlatP exFlatP = [(1/100, 1/100), (1/100, 1/100)] := by
      simp +decide [alignPair, exFlatP, List.lookup]
    norm_num [calculate_risk_adjusted_metrics, hal, sampleVar, listMean, compound,
      exFlatMetrics, RiskMetrics.mk.injEq]
    intro hbad
    simp at hbad
  have h := risk_metrics_zero_guards (fun x => x) (fun x => Iff.rfl) exFlatP exFlatP
    (1/50) exFlatMetrics hm
  exact ⟨hm, h.1 (by norm_num [exFlatMetrics]), h.2.1 (by norm_num [exFlatMetrics])⟩

/-- Claim C8: calculate_factor_tilts_attribution assigns each weighted
factor present in the table the contribution equal to the sum over dates
of (weight - 1/n) times the daily factor return, with 1/n the equal-weight
neutral weight over the n supplied factors; and when the supplied weights
are exactly the equal-weight vector every per-factor contribution is 0. -/
theorem factor_tilt_formula_and_equal_weight_zero (cols : List (String × List ℚ))
    (w : List (String × ℚ)) :
    factor_tilt_contributions cols w
      = w.filterMap (fun p => (cols.lookup p.1).map (fun col =>
          (p.1, (col.map (fun r => (p.2 - 1 / (w.length : ℚ)) * r)).sum)))
    ∧ ((∀ p ∈ w, p.2 = 1 / (w.length : ℚ)) →
        ∀ q ∈ factor_tilt_contributions cols w, q.2 = 0) := by
  constructor
  · unfold factor_tilt_contributions
    refine congrArg (fun f => w.filterMap f) ?_
    funext p
    cases cols.lookup p.1 <;> simp [mul_comm]
  · intro hw q hq
    obtain ⟨p, hp, hq'⟩ := List.mem_filterMap.mp hq
    cases hcol : cols.lookup p.1 with
    | none => rw [hcol] at hq'; simp at hq'
    | some col =>
      rw [hcol] at hq'
      simp only [Option.map_some'] at hq'
      cases hq'
      have hz : p.2 - 1 / (w.length : ℚ) = 0 := by rw [hw p hp]; ring
      apply List.sum_eq_zero
      intro y hy
      obtain ⟨r, hr, rfl⟩ := List.mem_map.mp hy
      rw [hz, mul_zero]

/-- Witness for C8: the two-factor equal-weight vector over the section-8
table yields contributions all equal to 0. -/
theorem factor_tilt_equal_weight_zero_witness :
    factor_tilt_contributions exCols exEqW = [("A", 0), ("B", 0)] ∧
    (("A", (0 : ℚ)) : String × ℚ).2 = 0 := by
  have heval : factor_tilt_contributions exCols exEqW = [("A", 0), ("B", 0)] := by
    simp +decide [factor_tilt_contributions, exCols, exEqW, List.lookup]
  have hz := (factor_tilt_formula_and_equal_weight_zero exCols exEqW).2
    (by
      intro p hp
      simp only [exEqW, List.mem_cons, List.not_mem_nil, or_false] at hp
      rcases hp with rfl | rfl <;> norm_num [exEqW])
    ("A", (0 : ℚ)) (by rw [heval]; simp)
  exact ⟨heval, hz⟩

/-- Claim C9: the computed portfolio daily return is the sum, over the
weighted factors that are present in the table with a non-NaN return on
that date, of weight times factor return; a weighted factor absent from
the row, or NaN on it, contributes exactly zero — dropping it from the
weight mapping leaves the value unchanged — and the computation is total,
raising nothing. -/
theorem portfolio_daily_return_missing_factor (row : List (String × Option ℚ))
    (w : List (String × ℚ)) :
    portfolioDailyReturn w row
      = (w.filterMap (fun p =>
          ((row.lookup p.1).bind id).map (fun r => p.2 * r))).sum
    ∧ ∀ f wf, (row.lookup f).bind id = none →
        portfolioDailyReturn ((f, wf) :: w) row = portfolioDailyReturn w row := by
  constructor
  · induction w with
    | nil => rfl
    | cons p rest ih =>
      simp only [portfolioDailyReturn, List.map_cons, List.sum_cons, List.filterMap_cons] at ih ⊢
      cases hl : row.lookup p.1 with
      | none => simpa [hl] using ih
      | some o =>
        cases o with
        | none => simpa [hl] using ih
        | some r => simp [hl, ih]
  · intro f wf h
    simp only [portfolioDailyReturn, List.map_cons, List.sum_cons]
    cases hl : row.lookup f with
    | none => simp
    | some o =>
      cases o with
      | none => simp
      | some r => rw [hl] at h; simp at h

/-- Witness for C9: weighting a factor Q that is absent from the row
leaves the portfolio daily return unchanged, here 1/200. -/
theorem portfolio_daily_return_missing_factor_witness :
    (([("A", some ((1:ℚ)/100))] : List (String × Option ℚ)).lookup "Q").bind id = none ∧
    portfolioDailyReturn [("Q", (1:ℚ)/2), ("A", 1/2)] [("A", some (1/100))]
      = portfolioDailyReturn [("A", (1:ℚ)/2)] [("A", some (1/100))] ∧
    portfolioDailyReturn [("A", (1:ℚ)/2)] [("A", some (1/100))] = 1/200 := by
  have habs : (([("A", some ((1:ℚ)/100))] : List (String × Option ℚ)).lookup "Q").bind id
      = none := by simp +decide [List.lookup]
  have h := (portfolio_daily_return_missing_factor [("A", some ((1:ℚ)/100))]
    [("A", (1:ℚ)/2)]).2 "Q" (1/2) habs
  refine ⟨habs, h, ?_⟩
  simp +decide [portfolioDailyReturn, List.lookup]
  norm_num

/-- Claim C10: for every collection of trades stored by record_trade and
not modified afterwards, verification succeeds: each stored row hashes
exactly the twelve trade fields (the asdict of the dataclass, excluding
the store-generated id and created_date and excluding hash_signature
itself) through the same sorted-key serialization used at write time, the
recomputed hash equals the stored hash_signature, and trade_records
integrity is reported true. -/
theorem record_trade_verify_roundtrip (ts : List TradeRecord) :
    (∀ t : TradeRecord, (record_trade t).fields = asdictTrade t ∧
        generate_hash_signature (record_trade t).fields = (record_trade t).hash_signature) ∧
    verify_data_integrity
        { trade_records := ts.map record_trade, decision_records := [], risk_assessments := [] }
      = { trade_records := true, decision_records := true, risk_assessments := true } := by
  constructor
  · exact fun t => ⟨rfl, rfl⟩
  · have h : ∀ r ∈ ts.map record_trade,
        decide (generate_hash_signature r.fields = r.hash_signature) = true := by
      intro r hr
      obtain ⟨t, _, rfl⟩ := List.mem_map.mp hr
      simp [record_trade]
    simp only [verify_data_integrity, IntegrityResults.mk.injEq, List.all_eq_true]
    exact ⟨fun r hr => h r hr, trivial, trivial⟩

/-- Claim C2 counterexample: decision and risk-assessment rows whose
stored fields no longer match their stored hash_signature are still
reported with integrity true — verify_data_integrity only ever loops over
trade_records; the code below its comment "Similar checks for other
tables..." does not exist, so tampering with a stored decision record or
risk assessment is never detected. -/
theorem verify_ignores_decision_and_risk_records :
    generate_hash_signature exTamperedDecision.fields ≠ exTamperedDecision.hash_signature ∧
    generate_hash_signature exTamperedRisk.fields ≠ exTamperedRisk.hash_signature ∧
    verify_data_integrity
        { trade_records := [], decision_records := [exTamperedDecision],
          risk_assessments := [exTamperedRisk] }
      = { trade_records := true, decision_records := true, risk_assessments := true } := by
  refine ⟨?_, ?_, rfl⟩ <;>
    simp +decide [exTamperedDecision, exTamperedRisk, generate_hash_signature,
      sortKeys, insertKey]

/-- Claim C2 (amended): post-storage mutation is detected for trade
records only — replacing the stored fields of a trade row with those of
any different trade makes the recomputed hash differ from the stored
hash_signature, and verify_data_integrity then reports trade_records
false; decision_records and risk_assessments are reported per table (not
per record) and are always true because they are never rechecked. -/
theorem verify_detects_trade_mutation (t t' : TradeRecord) (hne : t ≠ t') :
    (verify_data_integrity
        { trade_records :=
            [{ fields := asdictTrade t', hash_signature := generate_hash_signature (asdictTrade t) }],
          decision_records := [], risk_assessments := [] }).trade_records = false := by
  have hkey : generate_hash_signature (asdictTrade t') ≠ generate_hash_signature (asdictTrade t) := by
    intro h
    apply hne
    simp only [generate_hash_signature, sortKeys_asdict, List.cons.injEq, Prod.mk.injEq,
      Value.str.injEq, Value.num.injEq, true_and, and_true] at h
    obtain ⟨h1, h2, h3, h4, h5, h6, h7, h8, h9, h10, h11, h12⟩ := h
    cases t
    cases t'
    simp_all
  simp [verify_data_integrity, hkey]

/-- Witness for the amended C2: mutating the stored price and total_value
of a concrete recorded trade is reported as a trade_records integrity
violation. -/
theorem verify_detects_trade_mutation_witness :
    (verify_data_integrity
        { trade_records :=
            [{ fields := asdictTrade exTradeMutated,
               hash_signature := generate_hash_signature (asdictTrade exTrade) }],
          decision_records := [], risk_assessments := [] }).trade_records = false :=
  verify_detects_trade_mutation exTrade exTradeMutated
    (by
      intro h
      have hp := congrArg TradeRecord.price h
      norm_num [exTrade, exTradeMutated] at hp)

end FactorTilt
